import Mathlib

/-
  Verification development for the easy-mirror anthropometric measurement and
  biological-sex prediction pipeline.

  The sex-prediction component (src/sex_prediction.py) is embedded over ℚ:
  all of its arithmetic is +, -, *, /, abs, min, max and rounding, which are
  exact over the rationals.  The measurement engine
  (src/anthropometric_measurements.py) is embedded over ℝ because it takes
  Euclidean distances (square roots) of pixel coordinates.

  Python truthiness tests (`if value:`) on optional floats are modelled
  explicitly: a value is truthy when it is present and nonzero.  Python
  `is not None` tests are modelled as `Option.isSome` / pattern matches.
-/

set_option maxHeartbeats 1000000

namespace EasyMirror

/-- Python `round(x, 3)` modelled over ℚ: round to the nearest thousandth. -/
def round3 (x : ℚ) : ℚ := (round (x * 1000) : ℚ) / 1000

namespace SexPred

/-- The seven indicator names used by `SexPredictor`. -/
inductive IndName
  | shoulder_breadth
  | standing_height
  | head_circumference
  | shoulder_hip_ratio
  | armspan_height_ratio
  | head_height_ratio
  | upperarm_forearm_ratio
deriving DecidableEq

/-- Absolute-threshold table shape: `male_min`, `female_max`, `overlap_zone`. -/
structure AbsThresholds where
  male_min : ℚ
  female_max : ℚ
  overlap_zone : ℚ × ℚ

/-- Nearest-typical table shape: `male_typical`, `female_typical`, `overlap_zone`. -/
structure TypThresholds where
  male_typical : ℚ
  female_typical : ℚ
  overlap_zone : ℚ × ℚ

def shoulder_breadth_thresholds : AbsThresholds :=
  { male_min := 38.0, female_max := 36.0, overlap_zone := (34.0, 40.0) }

def height_thresholds : AbsThresholds :=
  { male_min := 165.0, female_max := 170.0, overlap_zone := (155.0, 180.0) }

def head_circumference_thresholds : AbsThresholds :=
  { male_min := 56.0, female_max := 55.0, overlap_zone := (53.0, 58.0) }

def shoulder_hip_ratio_thresholds : AbsThresholds :=
  { male_min := 1.35, female_max := 1.25, overlap_zone := (1.20, 1.40) }

def armspan_height_ratio_thresholds : TypThresholds :=
  { male_typical := 1.03, female_typical := 1.00, overlap_zone := (0.95, 1.08) }

def head_height_ratio_thresholds : TypThresholds :=
  { male_typical := 0.33, female_typical := 0.31, overlap_zone := (0.30, 0.35) }

def upperarm_forearm_ratio_thresholds : TypThresholds :=
  { male_typical := 1.45, female_typical := 1.40, overlap_zone := (1.35, 1.50) }

/-- `self.indicator_weights` from `SexPredictor.__init__`. -/
def indicator_weights : IndName → ℚ
  | .shoulder_breadth => 0.25
  | .standing_height => 0.15
  | .head_circumference => 0.15
  | .shoulder_hip_ratio => 0.20
  | .armspan_height_ratio => 0.10
  | .head_height_ratio => 0.10
  | .upperarm_forearm_ratio => 0.05

/-- The measurement keys `predict_sex` / `calculate_ratios` read from the
input mapping; a missing key yields `none` (Python `dict.get`). -/
structure Measurements where
  shoulder_breadth : Option ℚ
  standing_height : Option ℚ
  head_circumference : Option ℚ
  arm_span : Option ℚ
  waist_circumference : Option ℚ
  left_upper_arm_length : Option ℚ
  left_forearm_length : Option ℚ
  right_upper_arm_length : Option ℚ
  right_forearm_length : Option ℚ
  pose_detected : Bool
deriving DecidableEq

/-- Python truthiness of an optional float: `None` and `0.0` are falsy. -/
def truthy (o : Option ℚ) : Bool :=
  match o with
  | none => false
  | some v => v != 0

/-- `SexPredictor.calculate_hip_width_estimate`: `waist_circumference / 3.5`
when the waist circumference is truthy, else `None`. -/
def calculate_hip_width_estimate (m : Measurements) : Option ℚ :=
  if truthy m.waist_circumference then some (m.waist_circumference.getD 0 / 3.5)
  else none

/-- The four derived ratios (each `None` when its inputs are missing/falsy). -/
structure Ratios where
  shoulder_hip_ratio : Option ℚ
  armspan_height_ratio : Option ℚ
  head_height_ratio : Option ℚ
  upperarm_forearm_ratio : Option ℚ
deriving DecidableEq

/-- `SexPredictor.calculate_ratios`. -/
def calculate_ratios (m : Measurements) : Ratios :=
  let hip_width := calculate_hip_width_estimate m
  { shoulder_hip_ratio :=
      if truthy m.shoulder_breadth && truthy hip_width then
        some (m.shoulder_breadth.getD 0 / hip_width.getD 0)
      else none
    armspan_height_ratio :=
      if truthy m.arm_span && truthy m.standing_height then
        some (m.arm_span.getD 0 / m.standing_height.getD 0)
      else none
    head_height_ratio :=
      if truthy m.head_circumference && truthy m.standing_height then
        some (m.head_circumference.getD 0 / m.standing_height.getD 0)
      else none
    upperarm_forearm_ratio :=
      if truthy m.left_upper_arm_length && truthy m.left_forearm_length then
        some (m.left_upper_arm_length.getD 0 / m.left_forearm_length.getD 0)
      else if truthy m.right_upper_arm_length && truthy m.right_forearm_length then
        some (m.right_upper_arm_length.getD 0 / m.right_forearm_length.getD 0)
      else none }

/-- `SexPredictor.evaluate_indicator`. -/
def evaluate_indicator (value : ℚ) (indicator_type : IndName) : String × ℚ :=
  match indicator_type with
  | .shoulder_breadth =>
    let thresholds := shoulder_breadth_thresholds
    if value ≥ thresholds.male_min then
      ("male", min 1.0 ((value - thresholds.male_min) / 5.0 + 0.6))
    else if value ≤ thresholds.female_max then
      ("female", min 1.0 ((thresholds.female_max - value) / 5.0 + 0.6))
    else ("uncertain", 0.3)
  | .standing_height =>
    let thresholds := height_thresholds
    if value ≥ thresholds.male_min then
      ("male", min 1.0 ((value - thresholds.male_min) / 15.0 + 0.5))
    else if value ≤ thresholds.female_max then
      ("female", min 1.0 ((thresholds.female_max - value) / 15.0 + 0.5))
    else ("uncertain", 0.3)
  | .head_circumference =>
    let thresholds := head_circumference_thresholds
    if value ≥ thresholds.male_min then
      ("male", min 1.0 ((value - thresholds.male_min) / 3.0 + 0.6))
    else if value ≤ thresholds.female_max then
      ("female", min 1.0 ((thresholds.female_max - value) / 3.0 + 0.6))
    else ("uncertain", 0.3)
  | .shoulder_hip_ratio =>
    let thresholds := shoulder_hip_ratio_thresholds
    if value ≥ thresholds.male_min then
      ("male", min 1.0 ((value - thresholds.male_min) / 0.2 + 0.6))
    else if value ≤ thresholds.female_max then
      ("female", min 1.0 ((thresholds.female_max - value) / 0.2 + 0.6))
    else ("uncertain", 0.3)
  | .armspan_height_ratio =>
    let thresholds := armspan_height_ratio_thresholds
    let male_distance := |value - thresholds.male_typical|
    let female_distance := |value - thresholds.female_typical|
    if male_distance < female_distance then
      ("male", max 0.5 (1.0 - male_distance / 0.05))
    else
      ("female", max 0.5 (1.0 - female_distance / 0.05))
  | .head_height_ratio =>
    let thresholds := head_height_ratio_thresholds
    if value ≥ (thresholds.male_typical + thresholds.female_typical) / 2 then
      ("male", min 1.0 ((value - thresholds.female_typical) / 0.02 + 0.5))
    else
      ("female", min 1.0 ((thresholds.male_typical - value) / 0.02 + 0.5))
  | .upperarm_forearm_ratio =>
    let thresholds := upperarm_forearm_ratio_thresholds
    if value ≥ (thresholds.male_typical + thresholds.female_typical) / 2 then
      ("male", min 1.0 ((value - thresholds.female_typical) / 0.1 + 0.5))
    else
      ("female", min 1.0 ((thresholds.male_typical - value) / 0.1 + 0.5))

/-- The order in which `predict_sex` walks the indicators: the three direct
measurements, then the four ratios. -/
def indicatorOrder : List IndName :=
  [.shoulder_breadth, .standing_height, .head_circumference,
   .shoulder_hip_ratio, .armspan_height_ratio, .head_height_ratio,
   .upperarm_forearm_ratio]

/-- The backing value `predict_sex` reads for each indicator (direct
measurement, or entry of `calculate_ratios`); `predict_sex` skips an
indicator exactly when this is `none` (`is not None` tests in the source). -/
def indicatorValue (m : Measurements) : IndName → Option ℚ
  | .shoulder_breadth => m.shoulder_breadth
  | .standing_height => m.standing_height
  | .head_circumference => m.head_circumference
  | .shoulder_hip_ratio => (calculate_ratios m).shoulder_hip_ratio
  | .armspan_height_ratio => (calculate_ratios m).armspan_height_ratio
  | .head_height_ratio => (calculate_ratios m).head_height_ratio
  | .upperarm_forearm_ratio => (calculate_ratios m).upperarm_forearm_ratio

/-- The indicators `predict_sex` evaluates, with their values, in loop order. -/
def evaluatedIndicators (m : Measurements) : List (IndName × ℚ) :=
  indicatorOrder.filterMap (fun i => (indicatorValue m i).map (fun v => (i, v)))

/-- The running `weighted_scores[label]` accumulator of `predict_sex`: each
evaluated indicator whose label matches contributes `weight * confidence`. -/
def weightedScore (lab : String) (m : Measurements) : ℚ :=
  ((evaluatedIndicators m).map (fun p =>
    if (evaluate_indicator p.2 p.1).1 = lab then
      indicator_weights p.1 * (evaluate_indicator p.2 p.1).2
    else 0)).sum

/-- The running `total_weight` accumulator of `predict_sex`: every evaluated
indicator contributes its full weight, whatever label it produced. -/
def total_weight (m : Measurements) : ℚ :=
  ((evaluatedIndicators m).map (fun p => indicator_weights p.1)).sum

/-- The result dictionary built by `predict_sex` (`scores` flattened into
`male_score` / `female_score`). -/
structure PredictionResult where
  prediction : String
  confidence : ℚ
  certainty : ℚ
  male_score : ℚ
  female_score : ℚ
  indicators_used : ℕ
  total_possible_indicators : ℕ
  indicator_details : IndName → Option (ℚ × String × ℚ)
  ratios_calculated : Ratios

/-- `SexPredictor.predict_sex`. -/
def predict_sex (m : Measurements) : PredictionResult :=
  let ratios := calculate_ratios m
  let details : IndName → Option (ℚ × String × ℚ) :=
    fun i => (indicatorValue m i).map (fun v => (v, evaluate_indicator v i))
  if total_weight m > 0 then
    let male_score := weightedScore "male" m / total_weight m
    let female_score := weightedScore "female" m / total_weight m
    let final : String × ℚ :=
      if male_score > female_score then ("male", male_score)
      else if female_score > male_score then ("female", female_score)
      else ("uncertain", 0.5)
    let score_difference := |male_score - female_score|
    let certainty := min 1.0 (score_difference + 0.5)
    { prediction := final.1
      confidence := round3 final.2
      certainty := round3 certainty
      male_score := round3 male_score
      female_score := round3 female_score
      indicators_used := (evaluatedIndicators m).length
      total_possible_indicators := 7
      indicator_details := details
      ratios_calculated := ratios }
  else
    { prediction := "insufficient_data"
      confidence := round3 0.0
      certainty := round3 0.0
      male_score := round3 0.0
      female_score := round3 0.0
      indicators_used := (evaluatedIndicators m).length
      total_possible_indicators := 7
      indicator_details := details
      ratios_calculated := ratios }

/-- The weighted sum restricted to indicators that produced one definite
label: the filtered-sum form of the aggregation. -/
def labelWeightedSum (lab : String) (m : Measurements) : ℚ :=
  (((evaluatedIndicators m).filter
      (fun p => (evaluate_indicator p.2 p.1).1 = lab)).map
    (fun p => indicator_weights p.1 * (evaluate_indicator p.2 p.1).2)).sum

def sampleShoulderOnly : Measurements :=
  { shoulder_breadth := some 42.5, standing_height := none,
    head_circumference := none, arm_span := none, waist_circumference := none,
    left_upper_arm_length := none, left_forearm_length := none,
    right_upper_arm_length := none, right_forearm_length := none,
    pose_detected := true }

def sampleEmpty : Measurements :=
  { shoulder_breadth := none, standing_height := none, head_circumference := none,
    arm_span := none, waist_circumference := none,
    left_upper_arm_length := none, left_forearm_length := none,
    right_upper_arm_length := none, right_forearm_length := none,
    pose_detected := true }

def sampleZero : Measurements :=
  { shoulder_breadth := some 0, standing_height := none, head_circumference := none,
    arm_span := none, waist_circumference := some 0,
    left_upper_arm_length := none, left_forearm_length := none,
    right_upper_arm_length := none, right_forearm_length := none,
    pose_detected := true }

end SexPred

namespace ModulesPrediction

/- Embedding of the duplicated `SexPredictor` in
src/modules/prediction/sex_prediction.py.  Its thresholds, weights, ratio
derivations, indicator evaluators and `predict_sex` aggregation are
translated here independently; the module copy also has extra UI and
bust-estimation methods that `predict_sex` never calls. -/

open SexPred (IndName Measurements Ratios PredictionResult truthy)

def shoulder_breadth_thresholds : SexPred.AbsThresholds :=
  { male_min := 38.0, female_max := 36.0, overlap_zone := (34.0, 40.0) }

def height_thresholds : SexPred.AbsThresholds :=
  { male_min := 165.0, female_max := 170.0, overlap_zone := (155.0, 180.0) }

def head_circumference_thresholds : SexPred.AbsThresholds :=
  { male_min := 56.0, female_max := 55.0, overlap_zone := (53.0, 58.0) }

def shoulder_hip_ratio_thresholds : SexPred.AbsThresholds :=
  { male_min := 1.35, female_max := 1.25, overlap_zone := (1.20, 1.40) }

def armspan_height_ratio_thresholds : SexPred.TypThresholds :=
  { male_typical := 1.03, female_typical := 1.00, overlap_zone := (0.95, 1.08) }

def head_height_ratio_thresholds : SexPred.TypThresholds :=
  { male_typical := 0.33, female_typical := 0.31, overlap_zone := (0.30, 0.35) }

def upperarm_forearm_ratio_thresholds : SexPred.TypThresholds :=
  { male_typical := 1.45, female_typical := 1.40, overlap_zone := (1.35, 1.50) }

def indicator_weights : IndName → ℚ
  | .shoulder_breadth => 0.25
  | .standing_height => 0.15
  | .head_circumference => 0.15
  | .shoulder_hip_ratio => 0.20
  | .armspan_height_ratio => 0.10
  | .head_height_ratio => 0.10
  | .upperarm_forearm_ratio => 0.05

def calculate_hip_width_estimate (m : Measurements) : Option ℚ :=
  if truthy m.waist_circumference then some (m.waist_circumference.getD 0 / 3.5)
  else none

def calculate_ratios (m : Measurements) : Ratios :=
  let hip_width := calculate_hip_width_estimate m
  { shoulder_hip_ratio :=
      if truthy m.shoulder_breadth && truthy hip_width then
        some (m.shoulder_breadth.getD 0 / hip_width.getD 0)
      else none
    armspan_height_ratio :=
      if truthy m.arm_span && truthy m.standing_height then
        some (m.arm_span.getD 0 / m.standing_height.getD 0)
      else none
    head_height_ratio :=
      if truthy m.head_circumference && truthy m.standing_height then
        some (m.head_circumference.getD 0 / m.standing_height.getD 0)
      else none
    upperarm_forearm_ratio :=
      if truthy m.left_upper_arm_length && truthy m.left_forearm_length then
        some (m.left_upper_arm_length.getD 0 / m.left_forearm_length.getD 0)
      else if truthy m.right_upper_arm_length && truthy m.right_forearm_length then
        some (m.right_upper_arm_length.getD 0 / m.right_forearm_length.getD 0)
      else none }

def evaluate_indicator (value : ℚ) (indicator_type : IndName) : String × ℚ :=
  match indicator_type with
  | .shoulder_breadth =>
    let thresholds := shoulder_breadth_thresholds
    if value ≥ thresholds.male_min then
      ("male", min 1.0 ((value - thresholds.male_min) / 5.0 + 0.6))
    else if value ≤ thresholds.female_max then
      ("female", min 1.0 ((thresholds.female_max - value) / 5.0 + 0.6))
    else ("uncertain", 0.3)
  | .standing_height =>
    let thresholds := height_thresholds
    if value ≥ thresholds.male_min then
      ("male", min 1.0 ((value - thresholds.male_min) / 15.0 + 0.5))
    else if value ≤ thresholds.female_max then
      ("female", min 1.0 ((thresholds.female_max - value) / 15.0 + 0.5))
    else ("uncertain", 0.3)
  | .head_circumference =>
    let thresholds := head_circumference_thresholds
    if value ≥ thresholds.male_min then
      ("male", min 1.0 ((value - thresholds.male_min) / 3.0 + 0.6))
    else if value ≤ thresholds.female_max then
      ("female", min 1.0 ((thresholds.female_max - value) / 3.0 + 0.6))
    else ("uncertain", 0.3)
  | .shoulder_hip_ratio =>
    let thresholds := shoulder_hip_ratio_thresholds
    if value ≥ thresholds.male_min then
      ("male", min 1.0 ((value - thresholds.male_min) / 0.2 + 0.6))
    else if value ≤ thresholds.female_max then
      ("female", min 1.0 ((thresholds.female_max - value) / 0.2 + 0.6))
    else ("uncertain", 0.3)
  | .armspan_height_ratio =>
    let thresholds := armspan_height_ratio_thresholds
    let male_distance := |value - thresholds.male_typical|
    let female_distance := |value - thresholds.female_typical|
    if male_distance < female_distance then
      ("male", max 0.5 (1.0 - male_distance / 0.05))
    else
      ("female", max 0.5 (1.0 - female_distance / 0.05))
  | .head_height_ratio =>
    let thresholds := head_height_ratio_thresholds
    if value ≥ (thresholds.male_typical + thresholds.female_typical) / 2 then
      ("male", min 1.0 ((value - thresholds.female_typical) / 0.02 + 0.5))
    else
      ("female", min 1.0 ((thresholds.male_typical - value) / 0.02 + 0.5))
  | .upperarm_forearm_ratio =>
    let thresholds := upperarm_forearm_ratio_thresholds
    if value ≥ (thresholds.male_typical + thresholds.female_typical) / 2 then
      ("male", min 1.0 ((value - thresholds.female_typical) / 0.1 + 0.5))
    else
      ("female", min 1.0 ((thresholds.male_typical - value) / 0.1 + 0.5))

def indicatorOrder : List IndName :=
  [.shoulder_breadth, .standing_height, .head_circumference,
   .shoulder_hip_ratio, .armspan_height_ratio, .head_height_ratio,
   .upperarm_forearm_ratio]

def indicatorValue (m : Measurements) : IndName → Option ℚ
  | .shoulder_breadth => m.shoulder_breadth
  | .standing_height => m.standing_height
  | .head_circumference => m.head_circumference
  | .shoulder_hip_ratio => (calculate_ratios m).shoulder_hip_ratio
  | .armspan_height_ratio => (calculate_ratios m).armspan_height_ratio
  | .head_height_ratio => (calculate_ratios m).head_height_ratio
  | .upperarm_forearm_ratio => (calculate_ratios m).upperarm_forearm_ratio

def evaluatedIndicators (m : Measurements) : List (IndName × ℚ) :=
  indicatorOrder.filterMap (fun i => (indicatorValue m i).map (fun v => (i, v)))

def weightedScore (lab : String) (m : Measurements) : ℚ :=
  ((evaluatedIndicators m).map (fun p =>
    if (evaluate_indicator p.2 p.1).1 = lab then
      indicator_weights p.1 * (evaluate_indicator p.2 p.1).2
    else 0)).sum

def total_weight (m : Measurements) : ℚ :=
  ((evaluatedIndicators m).map (fun p => indicator_weights p.1)).sum

def predict_sex (m : Measurements) : PredictionResult :=
  let ratios := calculate_ratios m
  let details : IndName → Option (ℚ × String × ℚ) :=
    fun i => (indicatorValue m i).map (fun v => (v, evaluate_indicator v i))
  if total_weight m > 0 then
    let male_score := weightedScore "male" m / total_weight m
    let female_score := weightedScore "female" m / total_weight m
    let final : String × ℚ :=
      if male_score > female_score then ("male", male_score)
      else if female_score > male_score then ("female", female_score)
      else ("uncertain", 0.5)
    let score_difference := |male_score - female_score|
    let certainty := min 1.0 (score_difference + 0.5)
    { prediction := final.1
      confidence := round3 final.2
      certainty := round3 certainty
      male_score := round3 male_score
      female_score := round3 female_score
      indicators_used := (evaluatedIndicators m).length
      total_possible_indicators := 7
      indicator_details := details
      ratios_calculated := ratios }
  else
    { prediction := "insufficient_data"
      confidence := round3 0.0
      certainty := round3 0.0
      male_score := round3 0.0
      female_score := round3 0.0
      indicators_used := (evaluatedIndicators m).length
      total_possible_indicators := 7
      indicator_details := details
      ratios_calculated := ratios }

end ModulesPrediction

namespace Anthro

/-- One MediaPipe pose landmark: normalized coordinates, relative depth and
a visibility score. -/
structure Landmark where
  x : ℝ
  y : ℝ
  z : ℝ
  visibility : ℝ

/-- The 33 landmark names of `self.landmark_indices`. -/
inductive LName
  | nose
  | left_eye_inner
  | left_eye
  | left_eye_outer
  | right_eye_inner
  | right_eye
  | right_eye_outer
  | left_ear
  | right_ear
  | mouth_left
  | mouth_right
  | left_shoulder
  | right_shoulder
  | left_elbow
  | right_elbow
  | left_wrist
  | right_wrist
  | left_pinky
  | right_pinky
  | left_index
  | right_index
  | left_thumb
  | right_thumb
  | left_hip
  | right_hip
  | left_knee
  | right_knee
  | left_ankle
  | right_ankle
  | left_heel
  | right_heel
  | left_foot_index
  | right_foot_index
deriving DecidableEq, Fintype

/-- `self.landmark_indices` from
`AnthropometricMeasurements.__init__`. -/
def landmark_indices : LName → ℕ
  | .nose => 0
  | .left_eye_inner => 1
  | .left_eye => 2
  | .left_eye_outer => 3
  | .right_eye_inner => 4
  | .right_eye => 5
  | .right_eye_outer => 6
  | .left_ear => 7
  | .right_ear => 8
  | .mouth_left => 9
  | .mouth_right => 10
  | .left_shoulder => 11
  | .right_shoulder => 12
  | .left_elbow => 13
  | .right_elbow => 14
  | .left_wrist => 15
  | .right_wrist => 16
  | .left_pinky => 17
  | .right_pinky => 18
  | .left_index => 19
  | .right_index => 20
  | .left_thumb => 21
  | .right_thumb => 22
  | .left_hip => 23
  | .right_hip => 24
  | .left_knee => 25
  | .right_knee => 26
  | .left_ankle => 27
  | .right_ankle => 28
  | .left_heel => 29
  | .right_heel => 30
  | .left_foot_index => 31
  | .right_foot_index => 32

/-- `AnthropometricMeasurements.get_landmark_position`: the pixel position
of a landmark, `None` when the index is out of range or the landmark is not
visible enough (`visibility ≤ 0.5`). -/
noncomputable def get_landmark_position (landmarks : List Landmark)
    (landmark_name : LName) (frame_width frame_height : ℝ) :
    Option (ℝ × ℝ × ℝ) :=
  match landmarks[landmark_indices landmark_name]? with
  | some landmark =>
    if landmark.visibility > 0.5 then
      some (landmark.x * frame_width, landmark.y * frame_height, landmark.z)
    else none
  | none => none

/-- `AnthropometricMeasurements.calculate_distance_2d`. -/
noncomputable def calculate_distance_2d (point1 point2 : Option (ℝ × ℝ × ℝ)) :
    Option ℝ :=
  match point1, point2 with
  | some p1, some p2 =>
    some (Real.sqrt ((p1.1 - p2.1) ^ 2 + (p1.2.1 - p2.2.1) ^ 2))
  | _, _ => none

/-- The `side` parameter (`'left'` / `'right'`) of the bilateral
measurement methods. -/
inductive Side
  | left
  | right
deriving DecidableEq

/-- `AnthropometricMeasurements.calculate_shoulder_breadth` (the final
`if distance_pixels:` truthiness test makes a zero distance yield `None`). -/
noncomputable def calculate_shoulder_breadth (lms : List Landmark)
    (w h r : ℝ) : Option ℝ :=
  (calculate_distance_2d (get_landmark_position lms .left_shoulder w h)
      (get_landmark_position lms .right_shoulder w h)).bind
    (fun distance_pixels =>
      if distance_pixels = 0 then none else some (distance_pixels * r))

/-- `AnthropometricMeasurements.calculate_standing_height`: estimated head
top (10 cm above the nose, converted to pixels) down to the lower of the
visible ankles; `None` when the nose or both ankles are missing or the
pixel height is not positive. -/
noncomputable def calculate_standing_height (lms : List Landmark)
    (w h r : ℝ) : Option ℝ :=
  let nose := get_landmark_position lms .nose w h
  let left_ankle := get_landmark_position lms .left_ankle w h
  let right_ankle := get_landmark_position lms .right_ankle w h
  if nose.isSome ∧ (left_ankle.isSome ∨ right_ankle.isSome) then
    let ankle :=
      if left_ankle.isSome ∧ right_ankle.isSome ∧
          (left_ankle.getD (0, 0, 0)).2.1 > (right_ankle.getD (0, 0, 0)).2.1 then
        left_ankle.getD (0, 0, 0)
      else if right_ankle.isSome then right_ankle.getD (0, 0, 0)
      else left_ankle.getD (0, 0, 0)
    let head_top_y := (nose.getD (0, 0, 0)).2.1 - (10 / r)
    let height_pixels := ankle.2.1 - head_top_y
    if height_pixels > 0 then some (height_pixels * r) else none
  else none

/-- `AnthropometricMeasurements.calculate_arm_span`: wrist-to-wrist
distance scaled, plus 36 cm for the two hands. -/
noncomputable def calculate_arm_span (lms : List Landmark) (w h r : ℝ) :
    Option ℝ :=
  match get_landmark_position lms .left_wrist w h,
      get_landmark_position lms .right_wrist w h with
  | some left_wrist, some right_wrist =>
    (calculate_distance_2d (some left_wrist) (some right_wrist)).bind
      (fun wrist_distance =>
        if wrist_distance = 0 then none else some (wrist_distance * r + 36))
  | _, _ => none

/-- `AnthropometricMeasurements.calculate_upper_arm_length`. -/
noncomputable def calculate_upper_arm_length (lms : List Landmark)
    (w h r : ℝ) (side : Side) : Option ℝ :=
  (calculate_distance_2d
      (get_landmark_position lms
        (match side with | .left => .left_shoulder | .right => .right_shoulder) w h)
      (get_landmark_position lms
        (match side with | .left => .left_elbow | .right => .right_elbow) w h)).bind
    (fun distance_pixels =>
      if distance_pixels = 0 then none else some (distance_pixels * r))

/-- `AnthropometricMeasurements.calculate_forearm_length`. -/
noncomputable def calculate_forearm_length (lms : List Landmark)
    (w h r : ℝ) (side : Side) : Option ℝ :=
  (calculate_distance_2d
      (get_landmark_position lms
        (match side with | .left => .left_elbow | .right => .right_elbow) w h)
      (get_landmark_position lms
        (match side with | .left => .left_wrist | .right => .right_wrist) w h)).bind
    (fun distance_pixels =>
      if distance_pixels = 0 then none else some (distance_pixels * r))

/-- `AnthropometricMeasurements.calculate_thigh_length`. -/
noncomputable def calculate_thigh_length (lms : List Landmark)
    (w h r : ℝ) (side : Side) : Option ℝ :=
  (calculate_distance_2d
      (get_landmark_position lms
        (match side with | .left => .left_hip | .right => .right_hip) w h)
      (get_landmark_position lms
        (match side with | .left => .left_knee | .right => .right_knee) w h)).bind
    (fun distance_pixels =>
      if distance_pixels = 0 then none else some (distance_pixels * r))

/-- `AnthropometricMeasurements.calculate_lower_leg_length`. -/
noncomputable def calculate_lower_leg_length (lms : List Landmark)
    (w h r : ℝ) (side : Side) : Option ℝ :=
  (calculate_distance_2d
      (get_landmark_position lms
        (match side with | .left => .left_knee | .right => .right_knee) w h)
      (get_landmark_position lms
        (match side with | .left => .left_ankle | .right => .right_ankle) w h)).bind
    (fun distance_pixels =>
      if distance_pixels = 0 then none else some (distance_pixels * r))

/-- `AnthropometricMeasurements.estimate_chest_circumference`:
shoulder breadth times 2.4. -/
noncomputable def estimate_chest_circumference (lms : List Landmark)
    (w h r : ℝ) : Option ℝ :=
  (calculate_shoulder_breadth lms w h r).bind
    (fun shoulder_breadth =>
      if shoulder_breadth = 0 then none else some (shoulder_breadth * 2.4))

/-- `AnthropometricMeasurements.estimate_waist_circumference`:
hip-to-hip pixel distance, scaled, times 2.8. -/
noncomputable def estimate_waist_circumference (lms : List Landmark)
    (w h r : ℝ) : Option ℝ :=
  match get_landmark_position lms .left_hip w h,
      get_landmark_position lms .right_hip w h with
  | some left_hip, some right_hip =>
    (calculate_distance_2d (some left_hip) (some right_hip)).bind
      (fun hip_width =>
        if hip_width = 0 then none else some (hip_width * r * 2.8))
  | _, _ => none

/-- `AnthropometricMeasurements.estimate_head_circumference`:
ear-to-ear pixel distance, scaled, times 3.14. -/
noncomputable def estimate_head_circumference (lms : List Landmark)
    (w h r : ℝ) : Option ℝ :=
  match get_landmark_position lms .left_ear w h,
      get_landmark_position lms .right_ear w h with
  | some left_ear, some right_ear =>
    (calculate_distance_2d (some left_ear) (some right_ear)).bind
      (fun head_width =>
        if head_width = 0 then none else some (head_width * r * 3.14))
  | _, _ => none

/-- The 14 measurement names produced by `calculate_all_measurements`. -/
inductive MeasName
  | shoulder_breadth
  | standing_height
  | arm_span
  | left_upper_arm_length
  | right_upper_arm_length
  | left_forearm_length
  | right_forearm_length
  | left_thigh_length
  | right_thigh_length
  | left_lower_leg_length
  | right_lower_leg_length
  | chest_circumference
  | waist_circumference
  | head_circumference
deriving DecidableEq

/-- The per-measurement value computed inside
`calculate_all_measurements` before rounding (`None` entries are the ones
filtered out of the dictionary). -/
noncomputable def measurementRaw (lms : List Landmark) (w h r : ℝ) :
    MeasName → Option ℝ
  | .shoulder_breadth => calculate_shoulder_breadth lms w h r
  | .standing_height => calculate_standing_height lms w h r
  | .arm_span => calculate_arm_span lms w h r
  | .left_upper_arm_length => calculate_upper_arm_length lms w h r .left
  | .right_upper_arm_length => calculate_upper_arm_length lms w h r .right
  | .left_forearm_length => calculate_forearm_length lms w h r .left
  | .right_forearm_length => calculate_forearm_length lms w h r .right
  | .left_thigh_length => calculate_thigh_length lms w h r .left
  | .right_thigh_length => calculate_thigh_length lms w h r .right
  | .left_lower_leg_length => calculate_lower_leg_length lms w h r .left
  | .right_lower_leg_length => calculate_lower_leg_length lms w h r .right
  | .chest_circumference => estimate_chest_circumference lms w h r
  | .waist_circumference => estimate_waist_circumference lms w h r
  | .head_circumference => estimate_head_circumference lms w h r

/-- Python `round(v, 1)` over ℝ: round to the nearest tenth. -/
noncomputable def round1 (x : ℝ) : ℝ := (round (x * 10) : ℝ) / 10

/-- The numeric entries of the dictionary returned by
`AnthropometricMeasurements.calculate_all_measurements` once a pose has
been detected: each measurement that computed to a value, rounded to one
decimal place; `none` entries are absent from the dictionary. -/
noncomputable def calculate_all_measurements (lms : List Landmark)
    (w h r : ℝ) : MeasName → Option ℝ :=
  fun n => (measurementRaw lms w h r n).map round1

/-- `AnthropometricMeasurements.set_calibration`: takes the currently
stored `pixel_to_cm_ratio` and the requested one, returns the boolean
result together with the ratio stored afterwards. -/
noncomputable def set_calibration (current pixel_to_cm_ratio : ℝ) :
    Bool × ℝ :=
  if pixel_to_cm_ratio > 0 then (true, pixel_to_cm_ratio)
  else (false, current)

/-- The default `self.pixel_to_cm_ratio`. -/
noncomputable def default_pixel_to_cm_ratio : ℝ := 0.1

/-- The keypoints each measurement formula requires: hiding any of them
removes the measurement.  `standing_height` requires only the nose — either
ankle alone suffices for it. -/
def requiredKeys : MeasName → List LName
  | .shoulder_breadth => [.left_shoulder, .right_shoulder]
  | .standing_height => [.nose]
  | .arm_span => [.left_wrist, .right_wrist]
  | .left_upper_arm_length => [.left_shoulder, .left_elbow]
  | .right_upper_arm_length => [.right_shoulder, .right_elbow]
  | .left_forearm_length => [.left_elbow, .left_wrist]
  | .right_forearm_length => [.right_elbow, .right_wrist]
  | .left_thigh_length => [.left_hip, .left_knee]
  | .right_thigh_length => [.right_hip, .right_knee]
  | .left_lower_leg_length => [.left_knee, .left_ankle]
  | .right_lower_leg_length => [.right_knee, .right_ankle]
  | .chest_circumference => [.left_shoulder, .right_shoulder]
  | .waist_circumference => [.left_hip, .right_hip]
  | .head_circumference => [.left_ear, .right_ear]

/-- `lms2` is `lms` with exactly the keypoint `k` hidden: its entry keeps
its coordinates but its visibility drops from above 0.5 to at most 0.5;
every other entry is untouched. -/
def HidesAt (lms lms2 : List Landmark) (k : LName) : Prop :=
  ∃ lm lm2, lms[landmark_indices k]? = some lm ∧
    1/2 < lm.visibility ∧ lm2.visibility ≤ 1/2 ∧
    lm2.x = lm.x ∧ lm2.y = lm.y ∧ lm2.z = lm.z ∧
    lms2 = lms.set (landmark_indices k) lm2

/-- A landmark that is present but invisible. -/
noncomputable def hiddenLm : Landmark := ⟨0, 0, 0, 0⟩

/-- A fully visible landmark at the given (normalized) coordinates. -/
noncomputable def lmAt (x y : ℝ) : Landmark := ⟨x, y, 0, 1⟩

/-- A landmark list (frame 1 x 1) with only the two shoulders visible, at
pixel distance 128 apart. -/
noncomputable def shoulderLms : List Landmark :=
  [hiddenLm, hiddenLm, hiddenLm, hiddenLm, hiddenLm, hiddenLm, hiddenLm,
   hiddenLm, hiddenLm, hiddenLm, hiddenLm, lmAt 0 0, lmAt 128 0]

/-- A landmark list (frame 1 x 1) with only the two wrists visible, at
pixel distance 100 apart. -/
noncomputable def wristLms : List Landmark :=
  [hiddenLm, hiddenLm, hiddenLm, hiddenLm, hiddenLm, hiddenLm, hiddenLm,
   hiddenLm, hiddenLm, hiddenLm, hiddenLm, hiddenLm, hiddenLm, hiddenLm,
   hiddenLm, lmAt 0 0, lmAt 100 0]

/-- A landmark list (frame 1 x 1) with the nose and both ankles visible;
the left ankle (y = 1900) is lower than the right one (y = 1800). -/
noncomputable def standLms : List Landmark :=
  [lmAt 0 100, hiddenLm, hiddenLm, hiddenLm, hiddenLm, hiddenLm, hiddenLm,
   hiddenLm, hiddenLm, hiddenLm, hiddenLm, hiddenLm, hiddenLm, hiddenLm,
   hiddenLm, hiddenLm, hiddenLm, hiddenLm, hiddenLm, hiddenLm, hiddenLm,
   hiddenLm, hiddenLm, hiddenLm, hiddenLm, hiddenLm, hiddenLm,
   lmAt 0 1900, lmAt 0 1800]

/-- `standLms` with the left ankle's visibility dropped to 0.3. -/
noncomputable def standLms2 : List Landmark :=
  standLms.set 27 ⟨0, 1900, 0, 0.3⟩

/-- `shoulderLms` with the left shoulder's visibility dropped to 0. -/
noncomputable def shoulderLmsHid : List Landmark :=
  shoulderLms.set 11 ⟨0, 0, 0, 0⟩

end Anthro

/- ============================ Theorems ============================ -/

theorem round3_eq_of (x : ℚ) (z : ℤ) (h1 : (z : ℚ) ≤ x * 1000 + 1/2)
    (h2 : x * 1000 + 1/2 < z + 1) : round3 x = z / 1000 := by
  unfold round3
  rw [round_eq, Int.floor_eq_iff.mpr ⟨h1, h2⟩]

theorem round3_zero : round3 0 = 0 := by
  rw [round3_eq_of 0 0 (by norm_num) (by norm_num)]
  norm_num

theorem round3_half : round3 (1/2) = 1/2 := by
  rw [round3_eq_of (1/2) 500 (by norm_num) (by norm_num)]
  norm_num

theorem round3_mono {x y : ℚ} (h : x ≤ y) : round3 x ≤ round3 y := by
  unfold round3
  have : round (x * 1000) ≤ round (y * 1000) := by
    rw [round_eq, round_eq]
    exact Int.floor_le_floor (by linarith)
  have hc : ((round (x * 1000) : ℤ) : ℚ) ≤ ((round (y * 1000) : ℤ) : ℚ) := by
    exact_mod_cast this
  linarith

theorem round3_one : round3 1 = 1 := by
  rw [round3_eq_of 1 1000 (by norm_num) (by norm_num)]
  norm_num

theorem round3_nonneg {x : ℚ} (h : 0 ≤ x) : 0 ≤ round3 x := by
  have := round3_mono h
  rwa [round3_zero] at this

theorem round3_le_one {x : ℚ} (h : x ≤ 1) : round3 x ≤ 1 := by
  have := round3_mono h
  rwa [round3_one] at this

namespace SexPred

theorem lab_mm : (("male" : String) = "male") = True := by simp

theorem lab_mf : (("male" : String) = "female") = False := by simp

theorem lab_fm : (("female" : String) = "male") = False := by simp

theorem lab_ff : (("female" : String) = "female") = True := by simp

theorem lab_um : (("uncertain" : String) = "male") = False := by simp

theorem lab_uf : (("uncertain" : String) = "female") = False := by simp

/-- C3: each of the four absolute-threshold indicators follows the
male-min / female-max / overlap-zone scheme with base confidence 0.6
(0.5 for standing height) and divisors 5.0, 15.0, 3.0, 0.2; in particular a
shoulder breadth of 37.0 (inside the overlap zone) evaluates to
`("uncertain", 0.3)`.  The male branch takes priority: it applies whenever
`value ≥ male_min`, the female branch whenever `value ≤ female_max` but the
male branch did not fire, and the `uncertain` branch exactly when the value
lies strictly between `female_max` and `male_min`. -/
theorem evaluate_absolute_indicators_spec (v : ℚ) :
    ((38 ≤ v → evaluate_indicator v .shoulder_breadth =
        ("male", min 1 ((v - 38) / 5 + 3/5))) ∧
     (v < 38 → v ≤ 36 → evaluate_indicator v .shoulder_breadth =
        ("female", min 1 ((36 - v) / 5 + 3/5))) ∧
     (36 < v → v < 38 → evaluate_indicator v .shoulder_breadth =
        ("uncertain", 3/10))) ∧
    ((165 ≤ v → evaluate_indicator v .standing_height =
        ("male", min 1 ((v - 165) / 15 + 1/2))) ∧
     (v < 165 → v ≤ 170 → evaluate_indicator v .standing_height =
        ("female", min 1 ((170 - v) / 15 + 1/2))) ∧
     (170 < v → v < 165 → evaluate_indicator v .standing_height =
        ("uncertain", 3/10))) ∧
    ((56 ≤ v → evaluate_indicator v .head_circumference =
        ("male", min 1 ((v - 56) / 3 + 3/5))) ∧
     (v < 56 → v ≤ 55 → evaluate_indicator v .head_circumference =
        ("female", min 1 ((55 - v) / 3 + 3/5))) ∧
     (55 < v → v < 56 → evaluate_indicator v .head_circumference =
        ("uncertain", 3/10))) ∧
    ((27/20 ≤ v → evaluate_indicator v .shoulder_hip_ratio =
        ("male", min 1 ((v - 27/20) / (1/5) + 3/5))) ∧
     (v < 27/20 → v ≤ 5/4 → evaluate_indicator v .shoulder_hip_ratio =
        ("female", min 1 ((5/4 - v) / (1/5) + 3/5))) ∧
     (5/4 < v → v < 27/20 → evaluate_indicator v .shoulder_hip_ratio =
        ("uncertain", 3/10))) ∧
    evaluate_indicator 37 .shoulder_breadth = ("uncertain", 3/10) := by
  refine ⟨⟨?_, ?_, ?_⟩, ⟨?_, ?_, ?_⟩, ⟨?_, ?_, ?_⟩, ⟨?_, ?_, ?_⟩, ?_⟩ <;>
    simp only [evaluate_indicator, shoulder_breadth_thresholds, height_thresholds,
      head_circumference_thresholds, shoulder_hip_ratio_thresholds] <;>
    intros <;>
    split_ifs
  all_goals try ((exfalso; norm_num at *) <;> linarith)
  all_goals norm_num

/-- Witness for C3 at concrete values 42.5 (male branch), 30.0 (female
branch) and 37.0 (overlap zone). -/
theorem evaluate_absolute_indicators_spec_witness :
    evaluate_indicator 42.5 .shoulder_breadth = ("male", 1) ∧
    evaluate_indicator 30 .shoulder_breadth = ("female", 1) ∧
    evaluate_indicator 37 .shoulder_breadth = ("uncertain", 3/10) := by
  refine ⟨?_, ?_, (evaluate_absolute_indicators_spec 37).2.2.2.2⟩
  · have h := (evaluate_absolute_indicators_spec 42.5).1.1 (by norm_num)
    rw [h]
    norm_num
  · have h := (evaluate_absolute_indicators_spec 30).1.2.1 (by norm_num) (by norm_num)
    rw [h]
    norm_num

theorem indicator_weights_pos (i : IndName) : 0 < indicator_weights i := by
  cases i <;> norm_num [indicator_weights]

theorem min1_bounds {x : ℚ} (hx : 0 ≤ x) : 0 ≤ min 1 x ∧ min 1 x ≤ 1 :=
  ⟨le_min (by norm_num) hx, min_le_left _ _⟩

theorem maxhalf_bounds {x : ℚ} (hx : x ≤ 1) : 0 ≤ max (1/2) x ∧ max (1/2) x ≤ 1 :=
  ⟨le_trans (by norm_num) (le_max_left _ _), max_le (by norm_num) hx⟩

theorem evaluate_indicator_conf_bounds (v : ℚ) (i : IndName) :
    0 ≤ (evaluate_indicator v i).2 ∧ (evaluate_indicator v i).2 ≤ 1 := by
  have ha := abs_nonneg (v - (1.03 : ℚ))
  have hb := abs_nonneg (v - (1.00 : ℚ))
  cases i <;>
    simp only [evaluate_indicator, shoulder_breadth_thresholds, height_thresholds,
      head_circumference_thresholds, shoulder_hip_ratio_thresholds,
      armspan_height_ratio_thresholds, head_height_ratio_thresholds,
      upperarm_forearm_ratio_thresholds] <;>
    split_ifs <;>
    norm_num at * <;>
    linarith [abs_nonneg (v - (103/100 : ℚ)), abs_nonneg (v - (1 : ℚ))]

theorem total_weight_nonneg (m : Measurements) : 0 ≤ total_weight m := by
  unfold total_weight
  apply List.sum_nonneg
  intro x hx
  simp only [List.mem_map] at hx
  obtain ⟨p, hp, rfl⟩ := hx
  exact le_of_lt (indicator_weights_pos p.1)

theorem weightedScore_nonneg (lab : String) (m : Measurements) :
    0 ≤ weightedScore lab m := by
  unfold weightedScore
  apply List.sum_nonneg
  intro x hx
  simp only [List.mem_map] at hx
  obtain ⟨p, hp, rfl⟩ := hx
  split_ifs
  · exact mul_nonneg (le_of_lt (indicator_weights_pos p.1))
      (evaluate_indicator_conf_bounds p.2 p.1).1
  · exact le_refl 0

theorem weightedScore_le_total (lab : String) (m : Measurements) :
    weightedScore lab m ≤ total_weight m := by
  unfold weightedScore total_weight
  apply List.sum_le_sum
  intro p hp
  split_ifs
  · calc indicator_weights p.1 * (evaluate_indicator p.2 p.1).2
        ≤ indicator_weights p.1 * 1 :=
          mul_le_mul_of_nonneg_left (evaluate_indicator_conf_bounds p.2 p.1).2
            (le_of_lt (indicator_weights_pos p.1))
      _ = indicator_weights p.1 := mul_one _
  · exact le_of_lt (indicator_weights_pos p.1)

theorem evaluatedIndicators_eq_nil_of_total_weight_eq_zero (m : Measurements)
    (h : total_weight m = 0) : evaluatedIndicators m = [] := by
  by_contra hne
  have hpos : 0 < total_weight m := by
    unfold total_weight
    cases hev : evaluatedIndicators m with
    | nil => exact absurd hev hne
    | cons a t =>
      simp only [List.map_cons, List.sum_cons]
      have h1 := indicator_weights_pos a.1
      have h2 : 0 ≤ (t.map fun p => indicator_weights p.1).sum := by
        apply List.sum_nonneg
        intro x hx
        simp only [List.mem_map] at hx
        obtain ⟨p, hp, rfl⟩ := hx
        exact le_of_lt (indicator_weights_pos p.1)
      linarith
  exact absurd h (ne_of_gt hpos)

theorem weightedScore_eq_labelWeightedSum (lab : String) (m : Measurements) :
    weightedScore lab m = labelWeightedSum lab m := by
  unfold weightedScore labelWeightedSum
  generalize evaluatedIndicators m = l
  induction l with
  | nil => simp
  | cons a t ih =>
    by_cases h : (evaluate_indicator a.2 a.1).1 = lab <;>
      simp [h, ih, List.filter_cons]

/-- C1: every evaluated indicator contributes its full weight to the
normalization denominator regardless of the label it produced (an
`uncertain` indicator adds weight but no score), so each normalized score
is the sum of `weight * confidence` over evaluated indicators carrying that
definite label, divided by the sum of the weights of all evaluated
indicators. -/
theorem predict_sex_scores_normalized (m : Measurements)
    (h : 0 < total_weight m) :
    (predict_sex m).male_score =
      round3 (labelWeightedSum "male" m / total_weight m) ∧
    (predict_sex m).female_score =
      round3 (labelWeightedSum "female" m / total_weight m) := by
  simp only [predict_sex]
  rw [if_pos h]
  constructor <;> simp [weightedScore_eq_labelWeightedSum]

/-- Witness for C1 at a mapping holding only `shoulder_breadth = 42.5`. -/
theorem predict_sex_scores_normalized_witness :
    0 < total_weight sampleShoulderOnly ∧
    ((predict_sex sampleShoulderOnly).male_score =
       round3 (labelWeightedSum "male" sampleShoulderOnly /
         total_weight sampleShoulderOnly) ∧
     (predict_sex sampleShoulderOnly).female_score =
       round3 (labelWeightedSum "female" sampleShoulderOnly /
         total_weight sampleShoulderOnly)) := by
  have hw : 0 < total_weight sampleShoulderOnly := by
    norm_num [total_weight, evaluatedIndicators, indicatorOrder, indicatorValue,
      sampleShoulderOnly, calculate_ratios, calculate_hip_width_estimate, truthy,
      indicator_weights, List.filterMap_cons, List.filterMap_nil]
  exact ⟨hw, predict_sex_scores_normalized sampleShoulderOnly hw⟩

/-- C2: the final decision logic of `predict_sex`.  With zero accumulated
weight the result is `insufficient_data` with zero confidence, certainty,
scores and indicator count; otherwise the scores are the accumulated
weighted scores normalized by `total_weight`, the strictly larger score
decides the label and becomes the confidence, an exact tie yields
`uncertain` with confidence 0.5, and
`certainty = min(1, |male_score - female_score| + 0.5)`. -/
theorem predict_sex_final_decision (m : Measurements) :
    (total_weight m = 0 →
      (predict_sex m).prediction = "insufficient_data" ∧
      (predict_sex m).confidence = 0 ∧
      (predict_sex m).certainty = 0 ∧
      (predict_sex m).male_score = 0 ∧
      (predict_sex m).female_score = 0 ∧
      (predict_sex m).indicators_used = 0) ∧
    (total_weight m ≠ 0 →
      ((predict_sex m).male_score =
         round3 (weightedScore "male" m / total_weight m) ∧
       (predict_sex m).female_score =
         round3 (weightedScore "female" m / total_weight m)) ∧
      (weightedScore "female" m / total_weight m <
         weightedScore "male" m / total_weight m →
        (predict_sex m).prediction = "male" ∧
        (predict_sex m).confidence =
          round3 (weightedScore "male" m / total_weight m)) ∧
      (weightedScore "male" m / total_weight m <
         weightedScore "female" m / total_weight m →
        (predict_sex m).prediction = "female" ∧
        (predict_sex m).confidence =
          round3 (weightedScore "female" m / total_weight m)) ∧
      (weightedScore "male" m / total_weight m =
         weightedScore "female" m / total_weight m →
        (predict_sex m).prediction = "uncertain" ∧
        (predict_sex m).confidence = 1/2) ∧
      (predict_sex m).certainty =
        round3 (min 1 (|weightedScore "male" m / total_weight m -
          weightedScore "female" m / total_weight m| + 1/2))) := by
  have h00 : (0.0 : ℚ) = 0 := by norm_num
  constructor
  · intro h0
    have hnil := evaluatedIndicators_eq_nil_of_total_weight_eq_zero m h0
    simp only [predict_sex]
    rw [if_neg (by rw [h0]; exact lt_irrefl 0)]
    refine ⟨rfl, ?_, ?_, ?_, ?_, ?_⟩ <;> simp [h00, round3_zero, hnil]
  · intro hne
    have hpos : 0 < total_weight m :=
      lt_of_le_of_ne (total_weight_nonneg m) (Ne.symm hne)
    simp only [predict_sex]
    rw [if_pos hpos]
    refine ⟨⟨rfl, rfl⟩, ?_, ?_, ?_, ?_⟩
    · intro hab
      rw [if_pos hab]
      exact ⟨rfl, rfl⟩
    · intro hba
      rw [if_neg (lt_asymm hba), if_pos hba]
      exact ⟨rfl, rfl⟩
    · intro heq
      rw [if_neg (by rw [heq]; exact lt_irrefl _),
        if_neg (by rw [heq]; exact lt_irrefl _)]
      refine ⟨rfl, ?_⟩
      show round3 0.5 = 1/2
      rw [show (0.5 : ℚ) = 1/2 by norm_num, round3_half]
    · show round3 (min 1.0 (|_ - _| + 0.5)) = round3 (min 1 (|_ - _| + 1/2))
      norm_num

/-- Witness for C2: the empty measurement mapping (only `pose_detected`)
yields `insufficient_data`, and a shoulder-breadth-only mapping takes the
male branch of the decision. -/
theorem predict_sex_final_decision_witness :
    total_weight sampleEmpty = 0 ∧
    (predict_sex sampleEmpty).prediction = "insufficient_data" ∧
    (predict_sex sampleEmpty).confidence = 0 ∧
    (predict_sex sampleEmpty).indicators_used = 0 ∧
    total_weight sampleShoulderOnly ≠ 0 ∧
    (predict_sex sampleShoulderOnly).prediction = "male" := by
  have h0 : total_weight sampleEmpty = 0 := by
    simp [total_weight, evaluatedIndicators, indicatorOrder, indicatorValue, sampleEmpty,
      calculate_ratios, calculate_hip_width_estimate, truthy,
      List.filterMap_cons, List.filterMap_nil]
  have hne : total_weight sampleShoulderOnly ≠ 0 := by
    norm_num [total_weight, evaluatedIndicators, indicatorOrder, indicatorValue,
      sampleShoulderOnly, calculate_ratios, calculate_hip_width_estimate, truthy,
      indicator_weights, List.filterMap_cons, List.filterMap_nil]
  have hlt : weightedScore "female" sampleShoulderOnly / total_weight sampleShoulderOnly <
      weightedScore "male" sampleShoulderOnly / total_weight sampleShoulderOnly := by
    norm_num [weightedScore, total_weight, evaluatedIndicators, indicatorOrder,
      indicatorValue, sampleShoulderOnly, calculate_ratios, calculate_hip_width_estimate,
      truthy, indicator_weights, evaluate_indicator, shoulder_breadth_thresholds,
      lab_mm, lab_mf, lab_fm, lab_ff, lab_um, lab_uf, min_def,
      List.filterMap_cons, List.filterMap_nil]
  obtain ⟨hp, hc, _, _, _, hi⟩ := (predict_sex_final_decision sampleEmpty).1 h0
  exact ⟨h0, hp, hc, hi, hne,
    (((predict_sex_final_decision sampleShoulderOnly).2 hne).2.1 hlt).1⟩

/-- C7: every output of `predict_sex` satisfies the confidence bounds:
confidence, certainty and both normalized scores lie in `[0, 1]`, and so
does every per-indicator confidence produced by `evaluate_indicator`. -/
theorem prediction_output_bounds (m : Measurements) (v : ℚ) (i : IndName) :
    (0 ≤ (predict_sex m).confidence ∧ (predict_sex m).confidence ≤ 1) ∧
    (0 ≤ (predict_sex m).certainty ∧ (predict_sex m).certainty ≤ 1) ∧
    (0 ≤ (predict_sex m).male_score ∧ (predict_sex m).male_score ≤ 1) ∧
    (0 ≤ (predict_sex m).female_score ∧ (predict_sex m).female_score ≤ 1) ∧
    (0 ≤ (evaluate_indicator v i).2 ∧ (evaluate_indicator v i).2 ≤ 1) := by
  have h00 : (0.0 : ℚ) = 0 := by norm_num
  by_cases hpos : total_weight m > 0
  · have hm0 := weightedScore_nonneg "male" m
    have hf0 := weightedScore_nonneg "female" m
    have hm1 := weightedScore_le_total "male" m
    have hf1 := weightedScore_le_total "female" m
    have hma : 0 ≤ weightedScore "male" m / total_weight m :=
      div_nonneg hm0 (le_of_lt hpos)
    have hfa : 0 ≤ weightedScore "female" m / total_weight m :=
      div_nonneg hf0 (le_of_lt hpos)
    have hmb : weightedScore "male" m / total_weight m ≤ 1 :=
      (div_le_one hpos).mpr hm1
    have hfb : weightedScore "female" m / total_weight m ≤ 1 :=
      (div_le_one hpos).mpr hf1
    simp only [predict_sex]
    rw [if_pos hpos]
    refine ⟨?_, ?_, ⟨round3_nonneg hma, round3_le_one hmb⟩,
      ⟨round3_nonneg hfa, round3_le_one hfb⟩, evaluate_indicator_conf_bounds v i⟩
    · split_ifs with h1 h2
      · exact ⟨round3_nonneg hma, round3_le_one hmb⟩
      · exact ⟨round3_nonneg hfa, round3_le_one hfb⟩
      · exact ⟨round3_nonneg (by norm_num), round3_le_one (by norm_num)⟩
    · constructor
      · apply round3_nonneg
        have habs := abs_nonneg (weightedScore "male" m / total_weight m -
          weightedScore "female" m / total_weight m)
        exact le_min (by norm_num) (by linarith)
      · apply round3_le_one
        calc min 1.0 (|weightedScore "male" m / total_weight m -
              weightedScore "female" m / total_weight m| + 0.5)
            ≤ 1.0 := min_le_left _ _
          _ = 1 := by norm_num
  · simp only [predict_sex]
    rw [if_neg hpos]
    refine ⟨?_, ?_, ?_, ?_, evaluate_indicator_conf_bounds v i⟩ <;>
      constructor <;> simp [h00, round3_zero]

/-- C10: the ratio derivations test values for Python truthiness, so a
measurement recorded as `0` is treated like a missing one —
`calculate_ratios` yields `shoulder_hip_ratio = None` when
`waist_circumference` (or `shoulder_breadth`) is present with value 0 —
whereas the direct-measurement loop of `predict_sex` tests `is not None`
and still evaluates a zero-valued `shoulder_breadth` as an indicator
(labelled `female` with confidence 1). -/
theorem zero_value_truthiness_mismatch (m : Measurements) :
    (m.waist_circumference = some 0 →
      (calculate_ratios m).shoulder_hip_ratio = none) ∧
    (m.shoulder_breadth = some 0 →
      (calculate_ratios m).shoulder_hip_ratio = none ∧
      (predict_sex m).indicator_details .shoulder_breadth =
        some (0, "female", 1)) := by
  constructor
  · intro hw
    simp [calculate_ratios, calculate_hip_width_estimate, truthy, hw]
  · intro hs
    constructor
    · simp [calculate_ratios, truthy, hs]
    · have hdet : (predict_sex m).indicator_details =
          fun i => (indicatorValue m i).map (fun v => (v, evaluate_indicator v i)) := by
        simp only [predict_sex]
        split_ifs <;> rfl
      rw [hdet]
      simp only [indicatorValue, hs, Option.map_some]
      norm_num [evaluate_indicator, shoulder_breadth_thresholds, min_def]

/-- Witness for C10 at a mapping holding `shoulder_breadth = 0` and
`waist_circumference = 0`. -/
theorem zero_value_truthiness_mismatch_witness :
    (calculate_ratios sampleZero).shoulder_hip_ratio = none ∧
    (predict_sex sampleZero).indicator_details .shoulder_breadth =
      some (0, "female", 1) :=
  ⟨(zero_value_truthiness_mismatch sampleZero).1 rfl,
   ((zero_value_truthiness_mismatch sampleZero).2 rfl).2⟩

end SexPred

/-- C9: the two `SexPredictor.predict_sex` copies — src/sex_prediction.py
and src/modules/prediction/sex_prediction.py — agree on every input
mapping (their thresholds, weights, ratio derivations, evaluators and
aggregation are identical). -/
theorem predict_sex_copies_agree (m : SexPred.Measurements) :
    SexPred.predict_sex m = ModulesPrediction.predict_sex m := rfl

namespace Anthro

theorem round1_eq_of (x : ℝ) (z : ℤ) (h1 : (z : ℝ) ≤ x * 10 + 1/2)
    (h2 : x * 10 + 1/2 < z + 1) : round1 x = z / 10 := by
  unfold round1
  rw [round_eq, Int.floor_eq_iff.mpr ⟨h1, h2⟩]

theorem pos_of_get (lms : List Landmark) (n : LName) (w h x y z vis : ℝ)
    (hget : lms[landmark_indices n]? = some ⟨x, y, z, vis⟩)
    (hvis : vis > 0.5) :
    get_landmark_position lms n w h = some (x * w, y * h, z) := by
  unfold get_landmark_position
  rw [hget]
  show (if vis > 0.5 then some (x * w, y * h, z) else none) = some (x * w, y * h, z)
  rw [if_pos hvis]

theorem pos_none_of_get (lms : List Landmark) (n : LName) (w h x y z vis : ℝ)
    (hget : lms[landmark_indices n]? = some ⟨x, y, z, vis⟩)
    (hvis : ¬ vis > 0.5) :
    get_landmark_position lms n w h = none := by
  unfold get_landmark_position
  rw [hget]
  show (if vis > 0.5 then some (x * w, y * h, z) else none) = none
  rw [if_neg hvis]

theorem shoulder_pos_l :
    get_landmark_position shoulderLms .left_shoulder 1 1 = some (0, 0, 0) := by
  rw [pos_of_get shoulderLms .left_shoulder 1 1 0 0 0 1 rfl (by norm_num)]
  norm_num

theorem shoulder_pos_r :
    get_landmark_position shoulderLms .right_shoulder 1 1 = some (128, 0, 0) := by
  rw [pos_of_get shoulderLms .right_shoulder 1 1 128 0 0 1 rfl (by norm_num)]
  norm_num

theorem shoulder_dist :
    calculate_distance_2d (some ((0 : ℝ), (0 : ℝ), (0 : ℝ)))
      (some (128, 0, 0)) = some 128 := by
  unfold calculate_distance_2d
  norm_num
  rw [show (16384 : ℝ) = 128 ^ 2 by norm_num, Real.sqrt_sq (by norm_num)]

theorem shoulder_raw (r : ℝ) :
    calculate_shoulder_breadth shoulderLms 1 1 r = some (128 * r) := by
  unfold calculate_shoulder_breadth
  rw [shoulder_pos_l, shoulder_pos_r, shoulder_dist]
  simp only [Option.some_bind]
  rw [if_neg (by norm_num)]

/-- C8: with the left and right shoulders visible at pixel distance 128 and
calibration ratio 0.1 the measurement dictionary reports
`shoulder_breadth = 12.8` and `chest_circumference = 30.7`
(12.8 x 2.4 = 30.72, rounded to one decimal place). -/
theorem shoulder_scenario :
    calculate_all_measurements shoulderLms 1 1 0.1 .shoulder_breadth =
      some 12.8 ∧
    calculate_all_measurements shoulderLms 1 1 0.1 .chest_circumference =
      some 30.7 := by
  constructor
  · show (measurementRaw shoulderLms 1 1 0.1 .shoulder_breadth).map round1 =
      some 12.8
    simp only [measurementRaw]
    rw [shoulder_raw 0.1]
    simp only [Option.map_some']
    rw [show (128 * (0.1 : ℝ)) = 12.8 by norm_num,
      round1_eq_of 12.8 128 (by norm_num) (by norm_num)]
    norm_num
  · show (measurementRaw shoulderLms 1 1 0.1 .chest_circumference).map round1 =
      some 30.7
    simp only [measurementRaw, estimate_chest_circumference]
    rw [shoulder_raw 0.1]
    simp only [Option.some_bind]
    rw [if_neg (by norm_num)]
    simp only [Option.map_some']
    rw [show (128 * (0.1 : ℝ) * 2.4) = 30.72 by norm_num,
      round1_eq_of 30.72 307 (by norm_num) (by norm_num)]
    norm_num

/-- C6: `set_calibration` rejects a non-positive ratio (returns `false` and
leaves the stored ratio unchanged, e.g. for `-1`) and stores any positive
ratio, returning `true`; being a total function it never raises. -/
theorem set_calibration_spec (current r : ℝ) :
    (r ≤ 0 → set_calibration current r = (false, current)) ∧
    (0 < r → set_calibration current r = (true, r)) ∧
    set_calibration current (-1) = (false, current) := by
  refine ⟨?_, ?_, ?_⟩
  · intro hr
    unfold set_calibration
    rw [if_neg (not_lt.mpr hr)]
  · intro hr
    unfold set_calibration
    rw [if_pos hr]
  · unfold set_calibration
    rw [if_neg (by norm_num)]

/-- Witness for C6 at the default stored ratio 0.1 with requested ratios
-1 (rejected) and 2 (accepted). -/
theorem set_calibration_spec_witness :
    set_calibration default_pixel_to_cm_ratio (-1) =
      (false, default_pixel_to_cm_ratio) ∧
    set_calibration default_pixel_to_cm_ratio 2 = (true, 2) :=
  ⟨(set_calibration_spec default_pixel_to_cm_ratio (-1)).1 (by norm_num),
   (set_calibration_spec default_pixel_to_cm_ratio 2).2.1 (by norm_num)⟩

theorem wrist_pos_l :
    get_landmark_position wristLms .left_wrist 1 1 = some (0, 0, 0) := by
  rw [pos_of_get wristLms .left_wrist 1 1 0 0 0 1 rfl (by norm_num)]
  norm_num

theorem wrist_pos_r :
    get_landmark_position wristLms .right_wrist 1 1 = some (100, 0, 0) := by
  rw [pos_of_get wristLms .right_wrist 1 1 100 0 0 1 rfl (by norm_num)]
  norm_num

theorem wrist_dist :
    calculate_distance_2d (some ((0 : ℝ), (0 : ℝ), (0 : ℝ)))
      (some (100, 0, 0)) = some 100 := by
  unfold calculate_distance_2d
  norm_num
  rw [show (10000 : ℝ) = 100 ^ 2 by norm_num, Real.sqrt_sq (by norm_num)]

theorem arm_span_raw (r : ℝ) :
    calculate_arm_span wristLms 1 1 r = some (100 * r + 36) := by
  unfold calculate_arm_span
  rw [wrist_pos_l, wrist_pos_r]
  simp only
  rw [wrist_dist]
  simp only [Option.some_bind]
  rw [if_neg (by norm_num)]

/-- Counterexample to C4 as stated: `arm_span` is present at both ratios
0.1 and 0.2 for the same landmarks, but its value at the doubled ratio is
56, not 46 x 2 = 92 — the +36 cm hand allowance is not scaled, so not every
present measurement is proportional in the calibration ratio. -/
theorem calibration_scaling_counterexample :
    calculate_all_measurements wristLms 1 1 0.1 .arm_span = some 46 ∧
    calculate_all_measurements wristLms 1 1 0.2 .arm_span = some 56 ∧
    (56 : ℝ) ≠ 46 * (0.2 / 0.1) := by
  refine ⟨?_, ?_, by norm_num⟩
  · show (measurementRaw wristLms 1 1 0.1 .arm_span).map round1 = some 46
    simp only [measurementRaw]
    rw [arm_span_raw 0.1]
    simp only [Option.map_some']
    rw [show (100 * (0.1 : ℝ) + 36) = 46 by norm_num,
      round1_eq_of 46 460 (by norm_num) (by norm_num)]
    norm_num
  · show (measurementRaw wristLms 1 1 0.2 .arm_span).map round1 = some 56
    simp only [measurementRaw]
    rw [arm_span_raw 0.2]
    simp only [Option.map_some']
    rw [show (100 * (0.2 : ℝ) + 36) = 56 by norm_num,
      round1_eq_of 56 560 (by norm_num) (by norm_num)]
    norm_num

theorem scale_bind_prop (D : Option ℝ) (r1 r2 v : ℝ) (h1 : r1 ≠ 0)
    (h : (D.bind fun distance_pixels =>
        if distance_pixels = 0 then none
        else some (distance_pixels * r1)) = some v) :
    (D.bind fun distance_pixels =>
      if distance_pixels = 0 then none else some (distance_pixels * r2)) =
      some (v * (r2 / r1)) := by
  cases D with
  | none => simp at h
  | some d =>
    simp only [Option.some_bind] at h ⊢
    by_cases hd : d = 0
    · rw [if_pos hd] at h
      simp at h
    · rw [if_neg hd] at h ⊢
      simp only [Option.some.injEq] at h ⊢
      rw [← h]
      field_simp
      ring

theorem scale_bind_prop_mul (D : Option ℝ) (c r1 r2 v : ℝ) (h1 : r1 ≠ 0)
    (h : (D.bind fun d => if d = 0 then none else some (d * r1 * c)) = some v) :
    (D.bind fun d => if d = 0 then none else some (d * r2 * c)) =
      some (v * (r2 / r1)) := by
  cases D with
  | none => simp at h
  | some d =>
    simp only [Option.some_bind] at h ⊢
    by_cases hd : d = 0
    · rw [if_pos hd] at h
      simp at h
    · rw [if_neg hd] at h ⊢
      simp only [Option.some.injEq] at h ⊢
      rw [← h]
      field_simp
      ring

theorem shoulder_breadth_scales (lms : List Landmark) (w h r1 r2 v : ℝ)
    (h1 : r1 ≠ 0) (hp : calculate_shoulder_breadth lms w h r1 = some v) :
    calculate_shoulder_breadth lms w h r2 = some (v * (r2 / r1)) := by
  unfold calculate_shoulder_breadth at hp ⊢
  exact scale_bind_prop _ r1 r2 v h1 hp

theorem upper_arm_scales (lms : List Landmark) (w h r1 r2 v : ℝ) (side : Side)
    (h1 : r1 ≠ 0) (hp : calculate_upper_arm_length lms w h r1 side = some v) :
    calculate_upper_arm_length lms w h r2 side = some (v * (r2 / r1)) := by
  unfold calculate_upper_arm_length at hp ⊢
  exact scale_bind_prop _ r1 r2 v h1 hp

theorem forearm_scales (lms : List Landmark) (w h r1 r2 v : ℝ) (side : Side)
    (h1 : r1 ≠ 0) (hp : calculate_forearm_length lms w h r1 side = some v) :
    calculate_forearm_length lms w h r2 side = some (v * (r2 / r1)) := by
  unfold calculate_forearm_length at hp ⊢
  exact scale_bind_prop _ r1 r2 v h1 hp

theorem thigh_scales (lms : List Landmark) (w h r1 r2 v : ℝ) (side : Side)
    (h1 : r1 ≠ 0) (hp : calculate_thigh_length lms w h r1 side = some v) :
    calculate_thigh_length lms w h r2 side = some (v * (r2 / r1)) := by
  unfold calculate_thigh_length at hp ⊢
  exact scale_bind_prop _ r1 r2 v h1 hp

theorem lower_leg_scales (lms : List Landmark) (w h r1 r2 v : ℝ) (side : Side)
    (h1 : r1 ≠ 0) (hp : calculate_lower_leg_length lms w h r1 side = some v) :
    calculate_lower_leg_length lms w h r2 side = some (v * (r2 / r1)) := by
  unfold calculate_lower_leg_length at hp ⊢
  exact scale_bind_prop _ r1 r2 v h1 hp

theorem chest_scales (lms : List Landmark) (w h r1 r2 v : ℝ) (h1 : r1 ≠ 0)
    (h2 : r2 ≠ 0) (hp : estimate_chest_circumference lms w h r1 = some v) :
    estimate_chest_circumference lms w h r2 = some (v * (r2 / r1)) := by
  unfold estimate_chest_circumference at hp ⊢
  rcases hsb : calculate_shoulder_breadth lms w h r1 with _ | s
  · rw [hsb] at hp
    simp at hp
  · rw [hsb] at hp
    simp only [Option.some_bind] at hp
    by_cases hs : s = 0
    · rw [if_pos hs] at hp
      simp at hp
    · rw [if_neg hs] at hp
      simp only [Option.some.injEq] at hp
      rw [shoulder_breadth_scales lms w h r1 r2 s h1 hsb]
      simp only [Option.some_bind]
      rw [if_neg (mul_ne_zero hs (div_ne_zero h2 h1))]
      simp only [Option.some.injEq]
      rw [← hp]
      ring

theorem waist_scales (lms : List Landmark) (w h r1 r2 v : ℝ) (h1 : r1 ≠ 0)
    (hp : estimate_waist_circumference lms w h r1 = some v) :
    estimate_waist_circumference lms w h r2 = some (v * (r2 / r1)) := by
  unfold estimate_waist_circumference at hp ⊢
  rcases hL : get_landmark_position lms .left_hip w h with _ | pl <;>
    rcases hR : get_landmark_position lms .right_hip w h with _ | pr <;>
    simp only [hL, hR] at hp ⊢ <;>
    first
      | exact absurd hp (by simp)
      | exact scale_bind_prop_mul _ 2.8 r1 r2 v h1 hp

theorem head_scales (lms : List Landmark) (w h r1 r2 v : ℝ) (h1 : r1 ≠ 0)
    (hp : estimate_head_circumference lms w h r1 = some v) :
    estimate_head_circumference lms w h r2 = some (v * (r2 / r1)) := by
  unfold estimate_head_circumference at hp ⊢
  rcases hL : get_landmark_position lms .left_ear w h with _ | pl <;>
    rcases hR : get_landmark_position lms .right_ear w h with _ | pr <;>
    simp only [hL, hR] at hp ⊢ <;>
    first
      | exact absurd hp (by simp)
      | exact scale_bind_prop_mul _ 3.14 r1 r2 v h1 hp

/-- C4 amended: for fixed landmarks and frame dimensions and positive
calibration ratios `r1 < r2`, every measurement present at `r1` *except*
`standing_height` and `arm_span` is present at `r2` with its unrounded
value scaled by exactly `r2 / r1`.  The exclusions are forced by the code:
`standing_height` adds a constant 10 cm head allowance and `arm_span` a
constant 36 cm hand allowance, so both are affine rather than linear in
the ratio (see the counterexample), and the 1-decimal output rounding can
further break exact proportionality of the dictionary values. -/
theorem calibration_scaling_amended (lms : List Landmark) (w h r1 r2 : ℝ)
    (hr1 : 0 < r1) (hr12 : r1 < r2) (n : MeasName)
    (hn : n ≠ .standing_height ∧ n ≠ .arm_span) (v : ℝ)
    (hp : measurementRaw lms w h r1 n = some v) :
    measurementRaw lms w h r2 n = some (v * (r2 / r1)) := by
  have h1 : r1 ≠ 0 := ne_of_gt hr1
  have h2 : r2 ≠ 0 := ne_of_gt (lt_trans hr1 hr12)
  cases n with
  | standing_height => exact absurd rfl hn.1
  | arm_span => exact absurd rfl hn.2
  | shoulder_breadth => exact shoulder_breadth_scales lms w h r1 r2 v h1 hp
  | left_upper_arm_length => exact upper_arm_scales lms w h r1 r2 v .left h1 hp
  | right_upper_arm_length => exact upper_arm_scales lms w h r1 r2 v .right h1 hp
  | left_forearm_length => exact forearm_scales lms w h r1 r2 v .left h1 hp
  | right_forearm_length => exact forearm_scales lms w h r1 r2 v .right h1 hp
  | left_thigh_length => exact thigh_scales lms w h r1 r2 v .left h1 hp
  | right_thigh_length => exact thigh_scales lms w h r1 r2 v .right h1 hp
  | left_lower_leg_length => exact lower_leg_scales lms w h r1 r2 v .left h1 hp
  | right_lower_leg_length => exact lower_leg_scales lms w h r1 r2 v .right h1 hp
  | chest_circumference => exact chest_scales lms w h r1 r2 v h1 h2 hp
  | waist_circumference => exact waist_scales lms w h r1 r2 v h1 hp
  | head_circumference => exact head_scales lms w h r1 r2 v h1 hp

/-- Witness for the amended C4: doubling the ratio from 0.1 to 0.2 exactly
doubles the shoulder breadth computed from shoulders 128 pixels apart
(12.8 to 25.6). -/
theorem calibration_scaling_amended_witness :
    measurementRaw shoulderLms 1 1 0.2 .shoulder_breadth =
      some ((128 * 0.1) * (0.2 / 0.1)) ∧
    ((128 : ℝ) * 0.1) * (0.2 / 0.1) = 25.6 := by
  constructor
  · exact calibration_scaling_amended shoulderLms 1 1 0.1 0.2 (by norm_num)
      (by norm_num) .shoulder_breadth (by refine ⟨by decide, by decide⟩)
      (128 * 0.1) (by simp only [measurementRaw]; exact shoulder_raw 0.1)
  · norm_num

theorem landmark_indices_inj :
    ∀ a b : LName, landmark_indices a = landmark_indices b → a = b := by
  decide

theorem dist_none_l (Q : Option (ℝ × ℝ × ℝ)) :
    calculate_distance_2d none Q = none := by
  cases Q <;> rfl

theorem dist_none_r (P : Option (ℝ × ℝ × ℝ)) :
    calculate_distance_2d P none = none := by
  cases P <;> rfl

theorem hides_pos_eq {lms lms2 : List Landmark} {k : LName}
    (hyp : HidesAt lms lms2 k) (n : LName) (hne : n ≠ k) (w h : ℝ) :
    get_landmark_position lms2 n w h = get_landmark_position lms n w h := by
  obtain ⟨lm, lm2, hget, hv1, hv2, hx, hy, hz, hset⟩ := hyp
  unfold get_landmark_position
  rw [hset, List.getElem?_set_ne
    (fun hidx => hne (landmark_indices_inj n k hidx.symm))]

theorem hides_pos_none {lms lms2 : List Landmark} {k : LName}
    (hyp : HidesAt lms lms2 k) (w h : ℝ) :
    get_landmark_position lms2 k w h = none := by
  obtain ⟨lm, lm2, hget, hv1, hv2, hx, hy, hz, hset⟩ := hyp
  unfold get_landmark_position
  obtain ⟨hlt, _⟩ := List.getElem?_eq_some_iff.mp hget
  rw [hset, List.getElem?_set_eq_of_lt lm2 hlt]
  show (if lm2.visibility > 0.5 then
    some (lm2.x * w, lm2.y * h, lm2.z) else none) = none
  rw [if_neg (by rw [show (0.5 : ℝ) = 1/2 by norm_num]; exact not_lt.mpr hv2)]

theorem sb_none_of_hide {lms lms2 : List Landmark} {k : LName}
    (hyp : HidesAt lms lms2 k)
    (hk : k = .left_shoulder ∨ k = .right_shoulder) (w h r : ℝ) :
    calculate_shoulder_breadth lms2 w h r = none := by
  simp only [calculate_shoulder_breadth]
  rcases hk with rfl | rfl
  · rw [hides_pos_none hyp, dist_none_l]
    rfl
  · rw [hides_pos_none hyp, dist_none_r]
    rfl

theorem sb_eq_of_hide {lms lms2 : List Landmark} {k : LName}
    (hyp : HidesAt lms lms2 k) (hk1 : k ≠ .left_shoulder)
    (hk2 : k ≠ .right_shoulder) (w h r : ℝ) :
    calculate_shoulder_breadth lms2 w h r =
      calculate_shoulder_breadth lms w h r := by
  simp only [calculate_shoulder_breadth]
  rw [hides_pos_eq hyp .left_shoulder (Ne.symm hk1) w h,
    hides_pos_eq hyp .right_shoulder (Ne.symm hk2) w h]

/-- C5 amended: hiding a single keypoint removes exactly the measurements
whose formula requires it (as listed in `requiredKeys`) and leaves every
other measurement unchanged — except for `standing_height` when the hidden
keypoint is an ankle: an ankle is not required by `standing_height` (the
other ankle can substitute), yet hiding the ankle that was being used can
change the computed value or remove the measurement, which is what the
counterexample exhibits and what forces this exception. -/
theorem hide_keypoint_effect (lms lms2 : List Landmark) (w h r : ℝ)
    (k : LName) (hyp : HidesAt lms lms2 k) (n : MeasName) :
    (k ∈ requiredKeys n → calculate_all_measurements lms2 w h r n = none) ∧
    (k ∉ requiredKeys n →
      (n = .standing_height → k ≠ .left_ankle ∧ k ≠ .right_ankle) →
      calculate_all_measurements lms2 w h r n =
        calculate_all_measurements lms w h r n) := by
  suffices hsuff : (k ∈ requiredKeys n → measurementRaw lms2 w h r n = none) ∧
      (k ∉ requiredKeys n →
        (n = .standing_height → k ≠ .left_ankle ∧ k ≠ .right_ankle) →
        measurementRaw lms2 w h r n = measurementRaw lms w h r n) by
    constructor
    · intro hk
      show (measurementRaw lms2 w h r n).map round1 = none
      rw [hsuff.1 hk]
      rfl
    · intro hk hg
      show (measurementRaw lms2 w h r n).map round1 =
        (measurementRaw lms w h r n).map round1
      rw [hsuff.2 hk hg]
  cases n with
  | shoulder_breadth =>
    refine ⟨fun hk => ?_, fun hk _ => ?_⟩
    · simp only [requiredKeys, List.mem_cons, List.not_mem_nil, or_false] at hk
      exact sb_none_of_hide hyp hk w h r
    · simp only [requiredKeys, List.mem_cons, List.not_mem_nil, or_false] at hk
      push_neg at hk
      exact sb_eq_of_hide hyp hk.1 hk.2 w h r
  | chest_circumference =>
    refine ⟨fun hk => ?_, fun hk _ => ?_⟩
    · simp only [requiredKeys, List.mem_cons, List.not_mem_nil, or_false] at hk
      simp only [measurementRaw, estimate_chest_circumference]
      rw [sb_none_of_hide hyp hk w h r]
      rfl
    · simp only [requiredKeys, List.mem_cons, List.not_mem_nil, or_false] at hk
      push_neg at hk
      simp only [measurementRaw, estimate_chest_circumference]
      rw [sb_eq_of_hide hyp hk.1 hk.2 w h r]
  | standing_height =>
    refine ⟨fun hk => ?_, fun hk hg => ?_⟩
    · simp only [requiredKeys, List.mem_cons, List.not_mem_nil, or_false] at hk
      subst hk
      simp only [measurementRaw, calculate_standing_height]
      rw [hides_pos_none hyp]
      rw [if_neg (by simp)]
    · simp only [requiredKeys, List.mem_cons, List.not_mem_nil, or_false] at hk
      obtain ⟨hgl, hgr⟩ := hg rfl
      simp only [measurementRaw, calculate_standing_height]
      rw [hides_pos_eq hyp .nose (Ne.symm hk) w h,
        hides_pos_eq hyp .left_ankle (Ne.symm hgl) w h,
        hides_pos_eq hyp .right_ankle (Ne.symm hgr) w h]
  | arm_span =>
    refine ⟨fun hk => ?_, fun hk _ => ?_⟩
    · simp only [requiredKeys, List.mem_cons, List.not_mem_nil, or_false] at hk
      simp only [measurementRaw, calculate_arm_span]
      rcases hk with rfl | rfl
      · rw [hides_pos_none hyp]
      · rw [hides_pos_none hyp]
        rcases hL : get_landmark_position lms2 .left_wrist w h with _ | pl <;>
          simp [hL]
    · simp only [requiredKeys, List.mem_cons, List.not_mem_nil, or_false] at hk
      push_neg at hk
      simp only [measurementRaw, calculate_arm_span]
      rw [hides_pos_eq hyp .left_wrist (Ne.symm hk.1) w h,
        hides_pos_eq hyp .right_wrist (Ne.symm hk.2) w h]
  | left_upper_arm_length =>
    refine ⟨fun hk => ?_, fun hk _ => ?_⟩
    · simp only [requiredKeys, List.mem_cons, List.not_mem_nil, or_false] at hk
      simp only [measurementRaw, calculate_upper_arm_length]
      rcases hk with rfl | rfl
      · rw [hides_pos_none hyp, dist_none_l]
        rfl
      · rw [hides_pos_none hyp, dist_none_r]
        rfl
    · simp only [requiredKeys, List.mem_cons, List.not_mem_nil, or_false] at hk
      push_neg at hk
      simp only [measurementRaw, calculate_upper_arm_length]
      rw [hides_pos_eq hyp .left_shoulder (Ne.symm hk.1) w h,
        hides_pos_eq hyp .left_elbow (Ne.symm hk.2) w h]
  | right_upper_arm_length =>
    refine ⟨fun hk => ?_, fun hk _ => ?_⟩
    · simp only [requiredKeys, List.mem_cons, List.not_mem_nil, or_false] at hk
      simp only [measurementRaw, calculate_upper_arm_length]
      rcases hk with rfl | rfl
      · rw [hides_pos_none hyp, dist_none_l]
        rfl
      · rw [hides_pos_none hyp, dist_none_r]
        rfl
    · simp only [requiredKeys, List.mem_cons, List.not_mem_nil, or_false] at hk
      push_neg at hk
      simp only [measurementRaw, calculate_upper_arm_length]
      rw [hides_pos_eq hyp .right_shoulder (Ne.symm hk.1) w h,
        hides_pos_eq hyp .right_elbow (Ne.symm hk.2) w h]
  | left_forearm_length =>
    refine ⟨fun hk => ?_, fun hk _ => ?_⟩
    · simp only [requiredKeys, List.mem_cons, List.not_mem_nil, or_false] at hk
      simp only [measurementRaw, calculate_forearm_length]
      rcases hk with rfl | rfl
      · rw [hides_pos_none hyp, dist_none_l]
        rfl
      · rw [hides_pos_none hyp, dist_none_r]
        rfl
    · simp only [requiredKeys, List.mem_cons, List.not_mem_nil, or_false] at hk
      push_neg at hk
      simp only [measurementRaw, calculate_forearm_length]
      rw [hides_pos_eq hyp .left_elbow (Ne.symm hk.1) w h,
        hides_pos_eq hyp .left_wrist (Ne.symm hk.2) w h]
  | right_forearm_length =>
    refine ⟨fun hk => ?_, fun hk _ => ?_⟩
    · simp only [requiredKeys, List.mem_cons, List.not_mem_nil, or_false] at hk
      simp only [measurementRaw, calculate_forearm_length]
      rcases hk with rfl | rfl
      · rw [hides_pos_none hyp, dist_none_l]
        rfl
      · rw [hides_pos_none hyp, dist_none_r]
        rfl
    · simp only [requiredKeys, List.mem_cons, List.not_mem_nil, or_false] at hk
      push_neg at hk
      simp only [measurementRaw, calculate_forearm_length]
      rw [hides_pos_eq hyp .right_elbow (Ne.symm hk.1) w h,
        hides_pos_eq hyp .right_wrist (Ne.symm hk.2) w h]
  | left_thigh_length =>
    refine ⟨fun hk => ?_, fun hk _ => ?_⟩
    · simp only [requiredKeys, List.mem_cons, List.not_mem_nil, or_false] at hk
      simp only [measurementRaw, calculate_thigh_length]
      rcases hk with rfl | rfl
      · rw [hides_pos_none hyp, dist_none_l]
        rfl
      · rw [hides_pos_none hyp, dist_none_r]
        rfl
    · simp only [requiredKeys, List.mem_cons, List.not_mem_nil, or_false] at hk
      push_neg at hk
      simp only [measurementRaw, calculate_thigh_length]
      rw [hides_pos_eq hyp .left_hip (Ne.symm hk.1) w h,
        hides_pos_eq hyp .left_knee (Ne.symm hk.2) w h]
  | right_thigh_length =>
    refine ⟨fun hk => ?_, fun hk _ => ?_⟩
    · simp only [requiredKeys, List.mem_cons, List.not_mem_nil, or_false] at hk
      simp only [measurementRaw, calculate_thigh_length]
      rcases hk with rfl | rfl
      · rw [hides_pos_none hyp, dist_none_l]
        rfl
      · rw [hides_pos_none hyp, dist_none_r]
        rfl
    · simp only [requiredKeys, List.mem_cons, List.not_mem_nil, or_false] at hk
      push_neg at hk
      simp only [measurementRaw, calculate_thigh_length]
      rw [hides_pos_eq hyp .right_hip (Ne.symm hk.1) w h,
        hides_pos_eq hyp .right_knee (Ne.symm hk.2) w h]
  | left_lower_leg_length =>
    refine ⟨fun hk => ?_, fun hk _ => ?_⟩
    · simp only [requiredKeys, List.mem_cons, List.not_mem_nil, or_false] at hk
      simp only [measurementRaw, calculate_lower_leg_length]
      rcases hk with rfl | rfl
      · rw [hides_pos_none hyp, dist_none_l]
        rfl
      · rw [hides_pos_none hyp, dist_none_r]
        rfl
    · simp only [requiredKeys, List.mem_cons, List.not_mem_nil, or_false] at hk
      push_neg at hk
      simp only [measurementRaw, calculate_lower_leg_length]
      rw [hides_pos_eq hyp .left_knee (Ne.symm hk.1) w h,
        hides_pos_eq hyp .left_ankle (Ne.symm hk.2) w h]
  | right_lower_leg_length =>
    refine ⟨fun hk => ?_, fun hk _ => ?_⟩
    · simp only [requiredKeys, List.mem_cons, List.not_mem_nil, or_false] at hk
      simp only [measurementRaw, calculate_lower_leg_length]
      rcases hk with rfl | rfl
      · rw [hides_pos_none hyp, dist_none_l]
        rfl
      · rw [hides_pos_none hyp, dist_none_r]
        rfl
    · simp only [requiredKeys, List.mem_cons, List.not_mem_nil, or_false] at hk
      push_neg at hk
      simp only [measurementRaw, calculate_lower_leg_length]
      rw [hides_pos_eq hyp .right_knee (Ne.symm hk.1) w h,
        hides_pos_eq hyp .right_ankle (Ne.symm hk.2) w h]
  | waist_circumference =>
    refine ⟨fun hk => ?_, fun hk _ => ?_⟩
    · simp only [requiredKeys, List.mem_cons, List.not_mem_nil, or_false] at hk
      simp only [measurementRaw, estimate_waist_circumference]
      rcases hk with rfl | rfl
      · rw [hides_pos_none hyp]
      · rw [hides_pos_none hyp]
        rcases hL : get_landmark_position lms2 .left_hip w h with _ | pl <;>
          simp [hL]
    · simp only [requiredKeys, List.mem_cons, List.not_mem_nil, or_false] at hk
      push_neg at hk
      simp only [measurementRaw, estimate_waist_circumference]
      rw [hides_pos_eq hyp .left_hip (Ne.symm hk.1) w h,
        hides_pos_eq hyp .right_hip (Ne.symm hk.2) w h]
  | head_circumference =>
    refine ⟨fun hk => ?_, fun hk _ => ?_⟩
    · simp only [requiredKeys, List.mem_cons, List.not_mem_nil, or_false] at hk
      simp only [measurementRaw, estimate_head_circumference]
      rcases hk with rfl | rfl
      · rw [hides_pos_none hyp]
      · rw [hides_pos_none hyp]
        rcases hL : get_landmark_position lms2 .left_ear w h with _ | pl <;>
          simp [hL]
    · simp only [requiredKeys, List.mem_cons, List.not_mem_nil, or_false] at hk
      push_neg at hk
      simp only [measurementRaw, estimate_head_circumference]
      rw [hides_pos_eq hyp .left_ear (Ne.symm hk.1) w h,
        hides_pos_eq hyp .right_ear (Ne.symm hk.2) w h]

/-- Witness for the amended C5: hiding the left shoulder removes
`shoulder_breadth` (which requires it) and leaves `waist_circumference`
(which does not mention it) unchanged. -/
theorem hide_keypoint_effect_witness :
    calculate_all_measurements shoulderLmsHid 1 1 0.1 .shoulder_breadth =
      none ∧
    calculate_all_measurements shoulderLmsHid 1 1 0.1 .waist_circumference =
      calculate_all_measurements shoulderLms 1 1 0.1 .waist_circumference := by
  have hyp : HidesAt shoulderLms shoulderLmsHid .left_shoulder := by
    refine ⟨lmAt 0 0, ⟨0, 0, 0, 0⟩, rfl, ?_, ?_, ?_, ?_, ?_, rfl⟩ <;>
      norm_num [lmAt]
  exact ⟨(hide_keypoint_effect shoulderLms shoulderLmsHid 1 1 0.1
      .left_shoulder hyp .shoulder_breadth).1 (by decide),
    (hide_keypoint_effect shoulderLms shoulderLmsHid 1 1 0.1
      .left_shoulder hyp .waist_circumference).2 (by decide)
      (by intro hcon; exact absurd hcon (by decide))⟩

theorem stand_pos_nose :
    get_landmark_position standLms .nose 1 1 = some (0, 100, 0) := by
  rw [pos_of_get standLms .nose 1 1 0 100 0 1 rfl (by norm_num)]
  norm_num

theorem stand_pos_la :
    get_landmark_position standLms .left_ankle 1 1 = some (0, 1900, 0) := by
  rw [pos_of_get standLms .left_ankle 1 1 0 1900 0 1 rfl (by norm_num)]
  norm_num

theorem stand_pos_ra :
    get_landmark_position standLms .right_ankle 1 1 = some (0, 1800, 0) := by
  rw [pos_of_get standLms .right_ankle 1 1 0 1800 0 1 rfl (by norm_num)]
  norm_num

theorem stand2_pos_nose :
    get_landmark_position standLms2 .nose 1 1 = some (0, 100, 0) := by
  rw [pos_of_get standLms2 .nose 1 1 0 100 0 1 rfl (by norm_num)]
  norm_num

theorem stand2_pos_la :
    get_landmark_position standLms2 .left_ankle 1 1 = none :=
  pos_none_of_get standLms2 .left_ankle 1 1 0 1900 0 0.3 rfl (by norm_num)

theorem stand2_pos_ra :
    get_landmark_position standLms2 .right_ankle 1 1 = some (0, 1800, 0) := by
  rw [pos_of_get standLms2 .right_ankle 1 1 0 1800 0 1 rfl (by norm_num)]
  norm_num

theorem stand_height_val :
    calculate_standing_height standLms 1 1 0.1 = some 190 := by
  unfold calculate_standing_height
  rw [stand_pos_nose, stand_pos_la, stand_pos_ra]
  norm_num

theorem stand_height2_val :
    calculate_standing_height standLms2 1 1 0.1 = some 180 := by
  unfold calculate_standing_height
  rw [stand2_pos_nose, stand2_pos_la, stand2_pos_ra]
  norm_num

theorem stand_hides : HidesAt standLms standLms2 .left_ankle := by
  refine ⟨lmAt 0 1900, ⟨0, 1900, 0, 0.3⟩, rfl, ?_, ?_, ?_, ?_, ?_, rfl⟩ <;>
    norm_num [lmAt]

/-- Counterexample to C5 as stated: hiding the left ankle (with the right
ankle still visible) keeps `standing_height` present — so no measurement
"requiring" the ankle was removed — but changes its value from 190 to 180,
contradicting "leaves every other present measurement's numeric value
unchanged". -/
theorem hide_keypoint_counterexample :
    HidesAt standLms standLms2 .left_ankle ∧
    calculate_all_measurements standLms 1 1 0.1 .standing_height =
      some 190 ∧
    calculate_all_measurements standLms2 1 1 0.1 .standing_height =
      some 180 ∧
    (190 : ℝ) ≠ 180 := by
  refine ⟨stand_hides, ?_, ?_, by norm_num⟩
  · show (measurementRaw standLms 1 1 0.1 .standing_height).map round1 =
      some 190
    simp only [measurementRaw]
    rw [stand_height_val]
    simp only [Option.map_some']
    rw [round1_eq_of 190 1900 (by norm_num) (by norm_num)]
    norm_num
  · show (measurementRaw standLms2 1 1 0.1 .standing_height).map round1 =
      some 180
    simp only [measurementRaw]
    rw [stand_height2_val]
    simp only [Option.map_some']
    rw [round1_eq_of 180 1800 (by norm_num) (by norm_num)]
    norm_num

end Anthro

end EasyMirror
